import Mathlib

/-!
Shallow embedding of the `S3` object-storage facade
(`src/aws_s3_pydantic/main.py`, with the near-duplicate
`src/src/main.py` sharing the same construction check and operations).

The facade delegates every network operation to an injected boto3
client/resource handle.  That collaborator (boto3 and the remote S3
service) is not part of the repository's sources, so it is modelled
from the spec's collaborator contract: a `Service` state holding the
buckets and their object keys, whose list-objects call returns a single
response page while the resource-level filtered iteration auto-paginates
and drains every page.

Python-specific semantics that matter to the claims (truthiness of
optional strings, the `or ""` pattern in the credential check, `str()`
coercion of `pathlib.Path` arguments) are translated explicitly.
-/

/-- The process environment: a partial map from variable names to values.
`os.getenv name` is `env name`. -/
abbrev Env := String → Option String

/-- Python truthiness of an `Optional[str]` value: `None` and the empty
string are falsy, every other string is truthy. -/
def pyTruthyOptStr : Option String → Bool
  | none => false
  | some s => s ≠ ""

/-- The condition `os.getenv(name) is None or ""` from `S3.__init__`
(and `S3.__post_init__` in the dataclass variant).  Python `or` yields
its first operand when truthy, otherwise its second; the whole test is
truthy iff the `is None` test succeeds, because the literal `""` in the
second operand is falsy.  So the check fires exactly when the variable
is unset, and an empty-string value passes. -/
def envVarCheckRaises (v : Option String) : Bool :=
  (v == none) || pyTruthyOptStr (some "")

/-- The boto3 resource handle built by `boto3.resource("s3", **kwargs)`:
opaque to the facade, so modelled as a record of the keyword options it
was constructed from. -/
structure Boto3Resource where
  kwargs : List (String × String)
deriving DecidableEq

/-- The low-level client handle `resource.meta.client`. -/
structure Boto3Client where
  ofResource : Boto3Resource
deriving DecidableEq

/-- Errors raised by the facade at construction time: the credential
check raises with the message from the source (the spec calls this a
`ConfigurationError`). -/
inductive S3Error where
  | configurationError (msg : String)
deriving DecidableEq

/-- Observable transport-level events during construction: creation of a
boto3 resource (the transport/SDK client object). -/
inductive SdkEvent where
  | resourceCreated (kwargs : List (String × String))
deriving DecidableEq

/-- The pydantic model `S3`: both fields default to `None`. -/
structure S3 where
  s3_resource : Option Boto3Resource := none
  s3_client : Option Boto3Client := none
deriving DecidableEq

/-- The constructor `S3.__init__`: pydantic first sets the fields from
the supplied keyword data (defaults `None`), then, only when
`self.s3_client is None`, runs the two credential environment checks and
builds `boto3.resource("s3")` plus its `meta.client`.  The result is the
constructed instance or the raised error, paired with the trace of SDK
objects created along the way. -/
def S3.init (data : S3) (env : Env) : Except S3Error S3 × List SdkEvent :=
  if data.s3_client = none then
    if envVarCheckRaises (env "AWS_ACCESS_KEY_ID") then
      (.error (.configurationError "AWS_ACCESS_KEY_ID env var is not set."), [])
    else if envVarCheckRaises (env "AWS_SECRET_ACCESS_KEY") then
      (.error (.configurationError "AWS_SECRET_ACCESS_KEY env var is not set."), [])
    else
      let r : Boto3Resource := { kwargs := [] }
      (.ok { s3_resource := some r, s3_client := some { ofResource := r } },
        [.resourceCreated []])
  else
    (.ok data, [])

/-- The classmethod `S3.default_boto3_resource_init(**kwargs)`: builds
`boto3.resource("s3", **kwargs)` and its `meta.client` directly from the
caller-supplied options, then calls the constructor with both handles
set. -/
def S3.default_boto3_resource_init (kwargs : List (String × String)) (env : Env) :
    Except S3Error S3 × List SdkEvent :=
  let r : Boto3Resource := { kwargs := kwargs }
  let c : Boto3Client := { ofResource := r }
  let inner := S3.init { s3_resource := some r, s3_client := some c } env
  (inner.1, .resourceCreated kwargs :: inner.2)

/-- Modelled from the spec: transport-level failures surfaced by the
wrapped SDK (here, the only failure shape the claims need: a call
against a bucket the service does not have). -/
inductive TransportError where
  | noSuchBucket (bucket : String)
deriving DecidableEq

/-- Modelled from the spec: one bucket of the remote service — its name
and its object keys.  Object keys are unique within a bucket, listed in
the service's own order (the spec guarantees no particular order). -/
structure Bucket where
  name : String
  objects : List String
deriving DecidableEq

/-- Modelled from the spec: the remote object-storage service state the
injected SDK handle talks to.  `maxKeys` is the number of keys a single
list-objects response page carries (the real service returns up to 1000
per page and may return fewer). -/
structure Service where
  buckets : List Bucket
  maxKeys : Nat
deriving DecidableEq

/-- Look up a bucket by name in the service state. -/
def Service.findBucket (s : Service) (bucket_name : String) : Option Bucket :=
  s.buckets.find? (fun b => b.name = bucket_name)

/-- Python `str.startswith`: the candidate string starts with the given
characters.  Used by the service's Prefix filtering. -/
def pyStartswith (s pre : String) : Bool :=
  pre.data.isPrefixOf s.data

/-- One entry of the `Contents` array of a list-objects response; the
facade reads its `Key` field. -/
structure ListObjectsEntry where
  Key : String
deriving DecidableEq

/-- A list-objects response: the `Contents` field is absent (`none`)
when the bucket holds no objects, which is what makes the facade's
`["Contents"]` subscript raise `KeyError`. -/
structure ListObjectsResponse where
  Contents : Option (List ListObjectsEntry)
deriving DecidableEq

/-- Modelled from the spec: `list_objects_v2` returns a single response
page — at most `maxKeys` entries, with no `Contents` field when the
bucket is empty — and fails with a transport error when the bucket does
not exist. -/
def Service.list_objects_v2 (s : Service) (bucket_name : String) :
    Except TransportError ListObjectsResponse :=
  match s.findBucket bucket_name with
  | none => .error (.noSuchBucket bucket_name)
  | some b =>
      .ok { Contents :=
              if b.objects = [] then none
              else some ((b.objects.take s.maxKeys).map (fun k => { Key := k })) }

/-- Rewrite the object list of the named bucket with `f`, failing with
the service's error when the bucket does not exist. -/
def Service.updateObjects (s : Service) (bucket_name : String)
    (f : List String → List String) : Except TransportError Service :=
  match s.findBucket bucket_name with
  | none => .error (.noSuchBucket bucket_name)
  | some _ =>
      .ok { s with buckets :=
              s.buckets.map (fun b =>
                if b.name = bucket_name then { b with objects := f b.objects } else b) }

/-- Modelled from the spec: `put_object` stores the key in the bucket
(overwriting any existing object under that key, so the key set gains
`key` when absent and is unchanged when present). -/
def Service.put_object (s : Service) (bucket_name key : String) :
    Except TransportError Service :=
  s.updateObjects bucket_name (fun keys => if key ∈ keys then keys else keys ++ [key])

/-- Modelled from the spec: `delete_object` removes the key if present
and succeeds either way (the service treats deletion of an absent key as
success); it fails only when the bucket itself does not exist. -/
def Service.delete_object (s : Service) (bucket_name key : String) :
    Except TransportError Service :=
  s.updateObjects bucket_name (fun keys => keys.filter (fun k => k ≠ key))

/-- Modelled from the spec: the resource-level
`Bucket(name).objects.filter(Prefix=p)` iteration auto-paginates,
draining every page, so its net yield is every object key of the bucket
that starts with the given characters, in listing order. -/
def Service.objects_filter (s : Service) (bucket_name p : String) :
    Except TransportError (List String) :=
  match s.findBucket bucket_name with
  | none => .error (.noSuchBucket bucket_name)
  | some b => .ok (b.objects.filter (fun k => pyStartswith k p))

/-- One entry of the `Buckets` array of a list-buckets response; the
facade reads its `Name` field. -/
structure BucketEntry where
  Name : String
deriving DecidableEq

/-- A list-buckets response. -/
structure ListBucketsResponse where
  Buckets : List BucketEntry
deriving DecidableEq

/-- Modelled from the spec: `list_buckets` reports every bucket of the
service, in the service's own order. -/
def Service.list_buckets (s : Service) : ListBucketsResponse :=
  { Buckets := s.buckets.map (fun b => { Name := b.name }) }

/-- A Python argument that is either a plain `str` or a `pathlib.Path`
(the facade's path-like parameters accept both). -/
inductive StrOrPath where
  | str (s : String)
  | path (segments : List String)
deriving DecidableEq

/-- Python `str()` applied to such an argument: a string is itself; a
`pathlib.Path` renders as its segments joined by the separator. -/
def StrOrPath.toStr : StrOrPath → String
  | .str s => s
  | .path segments => String.intercalate "/" segments

/-- A Python value as forwarded to the SDK client: either a string or a
`pathlib.Path` object passed through unconverted. -/
inductive PyValue where
  | vstr (s : String)
  | vpath (segments : List String)
deriving DecidableEq

/-- Whether a forwarded value is a plain string. -/
def PyValue.isStr : PyValue → Bool
  | .vstr _ => true
  | .vpath _ => false

/-- Embed an argument as the value it has when forwarded unchanged (no
`str()` applied). -/
def StrOrPath.asValue : StrOrPath → PyValue
  | .str s => .vstr s
  | .path segments => .vpath segments

/-- The SDK client call a facade transfer method forwards, with the
exact argument values it passes. -/
inductive ClientCall where
  | download_file (bucket : PyValue) (key : PyValue) (filename : PyValue)
  | upload_file (filename : PyValue) (bucket : PyValue) (key : PyValue)
  | delete_object (bucket : PyValue) (key : PyValue)
deriving DecidableEq

/-- The call `S3.download_file` forwards:
`self.s3_client.download_file(bucket_name, str(remote_filepath), str(local_filepath))` —
both path arguments are cast with `str()`. -/
def S3.download_file_call (bucket_name : String)
    (local_filepath remote_filepath : StrOrPath) : ClientCall :=
  .download_file (.vstr bucket_name) (.vstr remote_filepath.toStr) (.vstr local_filepath.toStr)

/-- The call `S3.upload_file` forwards:
`self.s3_client.upload_file(local_filepath, bucket_name, remote_filepath)` —
the arguments are passed through as given, with no `str()` cast. -/
def S3.upload_file_call (bucket_name : String)
    (local_filepath remote_filepath : StrOrPath) : ClientCall :=
  .upload_file local_filepath.asValue (.vstr bucket_name) remote_filepath.asValue

/-- The call `S3.delete_file` forwards:
`self.s3_client.delete_object(Bucket=bucket_name, Key=remote_filepath)` —
the key is passed through as given, with no `str()` cast. -/
def S3.delete_file_call (bucket_name : String) (remote_filepath : StrOrPath) : ClientCall :=
  .delete_object (.vstr bucket_name) remote_filepath.asValue

/-- The body of `S3.get_file_list` applied to the transport's response:
`try: s3_files = resp["Contents"]; except KeyError: return []` followed
by collecting `key["Key"]` for each entry.  Only the `KeyError` from an
absent `Contents` field is caught; a transport failure propagates. -/
def get_file_list_core (resp : Except TransportError ListObjectsResponse) :
    Except TransportError (List String) :=
  match resp with
  | .error e => .error e
  | .ok r =>
      match r.Contents with
      | none => .ok []
      | some s3_files => .ok (s3_files.map (fun entry => entry.Key))

/-- `S3.get_file_list` against the service state: one `list_objects_v2`
call, then the `KeyError`-guarded collection of the `Key` fields. -/
def S3.get_file_list (s : Service) (bucket_name : String) :
    Except TransportError (List String) :=
  get_file_list_core (s.list_objects_v2 bucket_name)

/-- `S3.get_file_list_by_dir` against the service state: iterate
`self.s3_resource.Bucket(bucket_name).objects.filter(Prefix=directory)`
and collect each summary's key. -/
def S3.get_file_list_by_dir (s : Service) (bucket_name dir : String) :
    Except TransportError (List String) :=
  s.objects_filter bucket_name dir

/-- `S3.upload_file` against the service state: the local file is
streamed to the given remote key (file contents are not modelled; the
local path does not affect the key set). -/
def S3.upload_file (s : Service) (bucket_name : String)
    (local_filepath remote_filepath : String) : Except TransportError Service :=
  s.put_object bucket_name remote_filepath

/-- `S3.delete_file` against the service state: one `delete_object`
call. -/
def S3.delete_file (s : Service) (bucket_name remote_filepath : String) :
    Except TransportError Service :=
  s.delete_object bucket_name remote_filepath

/-- `S3.get_list_of_buckets`: one `list_buckets` call, then collect
`bucket["Name"]` for each entry of `response["Buckets"]`. -/
def S3.get_list_of_buckets (s : Service) : List String :=
  (Service.list_buckets s).Buckets.map (fun b => b.Name)

/-- `S3.does_bucket_exist`: `bucket_name in self.get_list_of_buckets()`. -/
def S3.does_bucket_exist (s : Service) (bucket_name : String) : Bool :=
  bucket_name ∈ S3.get_list_of_buckets s

/-- The create-bucket call the facade issues, with or without an
explicit `CreateBucketConfiguration={"LocationConstraint": location}`. -/
inductive CreateBucketCall where
  | withLocation (bucket_name loc : String)
  | noLocation (bucket_name : String)
deriving DecidableEq

/-- The branch logic of `S3.create_bucket`: `if location:` is Python
truthiness on the optional string, so `None` and `""` both take the
no-configuration branch and only a nonempty string is forwarded as a
`LocationConstraint`. -/
def S3.create_bucket_call (bucket_name : String) (location : Option String) :
    CreateBucketCall :=
  if pyTruthyOptStr location then
    match location with
    | some loc => .withLocation bucket_name loc
    | none => .noLocation bucket_name
  else
    .noLocation bucket_name

/-! Helper lemmas -/

theorem envVarCheckRaises_eq (v : Option String) : envVarCheckRaises v = (v == none) := by
  simp [envVarCheckRaises, pyTruthyOptStr]

/-- C1: on the environment-default construction path (no client handle
supplied), an unset `AWS_ACCESS_KEY_ID` or `AWS_SECRET_ACCESS_KEY`
makes construction raise the configuration error with an empty SDK
trace — before any transport object is created — while values set to
the empty string count as present, so construction with both variables
set to `""` succeeds. -/
theorem c1_env_credential_check :
    (∀ (env : Env) (data : S3), data.s3_client = none →
      env "AWS_ACCESS_KEY_ID" = none →
      S3.init data env =
        (.error (.configurationError "AWS_ACCESS_KEY_ID env var is not set."), [])) ∧
    (∀ (env : Env) (data : S3) (v : String), data.s3_client = none →
      env "AWS_ACCESS_KEY_ID" = some v →
      env "AWS_SECRET_ACCESS_KEY" = none →
      S3.init data env =
        (.error (.configurationError "AWS_SECRET_ACCESS_KEY env var is not set."), [])) ∧
    (∀ (env : Env) (data : S3),
      env "AWS_ACCESS_KEY_ID" = some "" →
      env "AWS_SECRET_ACCESS_KEY" = some "" →
      ∃ st : S3, (S3.init data env).1 = .ok st) := by
  refine ⟨?_, ?_, ?_⟩
  · intro env data hdata henv
    simp [S3.init, hdata, henv, envVarCheckRaises_eq]
  · intro env data v hdata henv henv'
    simp [S3.init, hdata, henv, henv', envVarCheckRaises_eq]
  · intro env data henv henv'
    cases hdata : data.s3_client with
    | none =>
        refine ⟨{ s3_resource := some { kwargs := [] },
                  s3_client := some { ofResource := { kwargs := [] } } }, ?_⟩
        simp [S3.init, hdata, henv, henv', envVarCheckRaises_eq]
    | some c =>
        exact ⟨data, by simp [S3.init, hdata]⟩

theorem c1_witness :
    S3.init {} (fun _ => none) =
      (.error (.configurationError "AWS_ACCESS_KEY_ID env var is not set."), []) :=
  c1_env_credential_check.1 (fun _ => none) {} rfl rfl

/-- C3: the explicit-parameter path `default_boto3_resource_init` builds
the resource and client directly from the supplied keyword options and
succeeds for every environment — including one with both credential
variables unset — and its outcome never depends on the environment. -/
theorem c3_explicit_path_bypasses_env :
    (∀ (kwargs : List (String × String)) (env : Env),
      S3.default_boto3_resource_init kwargs env =
        (.ok { s3_resource := some { kwargs := kwargs },
               s3_client := some { ofResource := { kwargs := kwargs } } },
          [.resourceCreated kwargs])) ∧
    (∀ (kwargs : List (String × String)) (env env' : Env),
      S3.default_boto3_resource_init kwargs env =
        S3.default_boto3_resource_init kwargs env') := by
  constructor
  · intro kwargs env
    rfl
  · intro kwargs env env'
    rfl

/-- C10: an empty-string region argument to `create_bucket` takes the
falsy branch of `if location:`, so the call issued is identical to the
one with the region omitted — no location configuration is forwarded. -/
theorem c10_empty_location_treated_as_absent (b : String) :
    S3.create_bucket_call b (some "") = S3.create_bucket_call b none ∧
    S3.create_bucket_call b (some "") = .noLocation b := by
  constructor <;> rfl

/-- C7 counterexample: the region `""` is present (passed by the
caller), yet `create_bucket` does not forward it as a
`LocationConstraint` — it issues the no-configuration call instead. -/
theorem c7_counterexample :
    S3.create_bucket_call "mybucket" (some "") = .noLocation "mybucket" ∧
    S3.create_bucket_call "mybucket" (some "") ≠ .withLocation "mybucket" "" :=
  ⟨rfl, by decide⟩

/-- C7 (amended): an omitted region yields the call with no location
configuration; a present nonempty region is forwarded as an explicit
`LocationConstraint`; a present empty-string region is treated as
absent. -/
theorem c7_amended_create_bucket_location (b : String) :
    S3.create_bucket_call b none = .noLocation b ∧
    (∀ loc : String, loc ≠ "" →
      S3.create_bucket_call b (some loc) = .withLocation b loc) ∧
    S3.create_bucket_call b (some "") = .noLocation b := by
  refine ⟨rfl, ?_, rfl⟩
  intro loc hloc
  simp [S3.create_bucket_call, pyTruthyOptStr, hloc]

theorem c7_witness :
    "us-east-1" ≠ "" ∧
    S3.create_bucket_call "mybucket" (some "us-east-1") =
      .withLocation "mybucket" "us-east-1" :=
  ⟨by decide, (c7_amended_create_bucket_location "mybucket").2.1 "us-east-1" (by decide)⟩

/-- C6 counterexample: `upload_file` forwards its local-path argument to
the SDK exactly as given, so a `pathlib.Path` argument reaches the SDK
as the path object, not as its string form. -/
theorem c6_counterexample :
    S3.upload_file_call "b" (.path ["d", "f.txt"]) (.str "k") =
      .upload_file (.vpath ["d", "f.txt"]) (.vstr "b") (.vstr "k") ∧
    PyValue.vpath ["d", "f.txt"] ≠ .vstr (StrOrPath.toStr (.path ["d", "f.txt"])) :=
  ⟨rfl, by decide⟩

/-- C6 (amended): only `download_file` coerces its two path-like
arguments with `str()` before forwarding; `upload_file` and
`delete_file` forward their path arguments unchanged, so a
`pathlib.Path` passed to them reaches the SDK as a non-string value. -/
theorem c6_amended_path_coercion :
    (∀ (b : String) (l r : StrOrPath),
      S3.download_file_call b l r =
        .download_file (.vstr b) (.vstr r.toStr) (.vstr l.toStr)) ∧
    (∀ (b : String) (segs : List String) (r : StrOrPath),
      S3.upload_file_call b (.path segs) r =
        .upload_file (.vpath segs) (.vstr b) r.asValue ∧
      (PyValue.vpath segs).isStr = false) ∧
    (∀ (b : String) (segs : List String),
      S3.delete_file_call b (.path segs) =
        .delete_object (.vstr b) (.vpath segs) ∧
      (PyValue.vpath segs).isStr = false) := by
  refine ⟨fun b l r => rfl, fun b segs r => ⟨rfl, rfl⟩, fun b segs => ⟨rfl, rfl⟩⟩

/-- C2: `get_file_list` normalizes an absent `Contents` field (empty
bucket) to the empty list and never to an error; with `Contents`
present it returns the `Key` of every listed entry; its result type
rules out a null result; and a transport failure is propagated, never
swallowed. -/
theorem c2_get_file_list_normalization :
    (∀ r : ListObjectsResponse, r.Contents = none →
      get_file_list_core (.ok r) = .ok []) ∧
    (∀ (r : ListObjectsResponse) (entries : List ListObjectsEntry),
      r.Contents = some entries →
      get_file_list_core (.ok r) = .ok (entries.map (fun entry => entry.Key))) ∧
    (∀ e : TransportError, get_file_list_core (.error e) = .error e) ∧
    (∀ (s : Service) (b : String) (bu : Bucket),
      s.findBucket b = some bu → bu.objects = [] →
      S3.get_file_list s b = .ok []) := by
  refine ⟨?_, ?_, ?_, ?_⟩
  · intro r h
    simp [get_file_list_core, h]
  · intro r entries h
    simp [get_file_list_core, h]
  · intro e
    rfl
  · intro s b bu hb hobj
    simp [S3.get_file_list, Service.list_objects_v2, hb, hobj, get_file_list_core]

theorem c2_witness :
    get_file_list_core (.ok { Contents := none }) = .ok [] :=
  c2_get_file_list_normalization.1 { Contents := none } rfl

/-- C8: `does_bucket_exist` is exactly the membership test of the name
against the full `get_list_of_buckets` result, and therefore answers
true precisely when the service state has a bucket of that name. -/
theorem c8_does_bucket_exist_membership (s : Service) (b : String) :
    (S3.does_bucket_exist s b = true ↔ b ∈ S3.get_list_of_buckets s) ∧
    (S3.does_bucket_exist s b = true ↔ (s.findBucket b).isSome = true) := by
  constructor
  · simp [S3.does_bucket_exist]
  · have h1 : (S3.does_bucket_exist s b = true) ↔ b ∈ S3.get_list_of_buckets s := by
      simp [S3.does_bucket_exist]
    rw [h1]
    simp only [S3.get_list_of_buckets, Service.list_buckets, List.map_map, List.mem_map,
      Function.comp, Service.findBucket, List.find?_isSome, decide_eq_true_eq]

theorem c8_witness :
    S3.does_bucket_exist { buckets := [{ name := "b", objects := [] }], maxKeys := 1000 } "b" =
      true ↔
    "b" ∈ S3.get_list_of_buckets { buckets := [{ name := "b", objects := [] }], maxKeys := 1000 } :=
  (c8_does_bucket_exist_membership
    { buckets := [{ name := "b", objects := [] }], maxKeys := 1000 } "b").1

/-- C9: construction is atomic — whenever either construction path
returns an instance, that instance's client handle is set, and on the
environment-default path (no client supplied) the resource handle is
set and both credential variables were present. -/
theorem c9_construction_atomicity :
    (∀ (data : S3) (env : Env) (st : S3) (tr : List SdkEvent),
      S3.init data env = (.ok st, tr) →
      st.s3_client.isSome = true ∧
      (data.s3_client = none →
        st.s3_resource.isSome = true ∧
        (env "AWS_ACCESS_KEY_ID").isSome = true ∧
        (env "AWS_SECRET_ACCESS_KEY").isSome = true)) ∧
    (∀ (kwargs : List (String × String)) (env : Env) (st : S3) (tr : List SdkEvent),
      S3.default_boto3_resource_init kwargs env = (.ok st, tr) →
      st.s3_client.isSome = true) := by
  constructor
  · intro data env st tr h
    cases hdata : data.s3_client with
    | some c =>
        rw [S3.init] at h
        simp only [hdata] at h
        simp at h
        rcases h with ⟨hst, -⟩
        subst hst
        refine ⟨?_, ?_⟩
        · rw [hdata]
          rfl
        · intro hnone
          simp [hdata] at hnone
    | none =>
        cases henv1 : env "AWS_ACCESS_KEY_ID" with
        | none =>
            simp [S3.init, hdata, henv1, envVarCheckRaises_eq] at h
        | some v1 =>
            cases henv2 : env "AWS_SECRET_ACCESS_KEY" with
            | none =>
                simp [S3.init, hdata, henv1, henv2, envVarCheckRaises_eq] at h
            | some v2 =>
                simp [S3.init, hdata, henv1, henv2, envVarCheckRaises_eq] at h
                rcases h with ⟨hst, -⟩
                subst hst
                simp [henv1, henv2]
  · intro kwargs env st tr h
    simp [S3.default_boto3_resource_init, S3.init] at h
    rcases h with ⟨hst, -⟩
    subst hst
    rfl

theorem c9_witness :
    ({ s3_resource := some { kwargs := [] },
       s3_client := some { ofResource := { kwargs := [] } } } : S3).s3_client.isSome = true :=
  (c9_construction_atomicity.1 {} (fun _ => some "x")
    { s3_resource := some { kwargs := [] },
      s3_client := some { ofResource := { kwargs := [] } } }
    [.resourceCreated []] rfl).1

theorem Bucket.name_if_update (b : Bucket) (n : String) (f : List String → List String) :
    (if b.name = n then { b with objects := f b.objects } else b).name = b.name := by
  split <;> rfl

theorem find?_map_update (n m : String) (f : List String → List String) :
    ∀ l : List Bucket,
      (l.map (fun b => if b.name = n then { b with objects := f b.objects } else b)).find?
          (fun b => b.name = m) =
        (l.find? (fun b => b.name = m)).map
          (fun b => if b.name = n then { b with objects := f b.objects } else b)
  | [] => rfl
  | b :: t => by
      rw [List.map_cons, List.find?_cons, List.find?_cons, Bucket.name_if_update]
      cases hd : (decide (b.name = m)) with
      | true => rfl
      | false => exact find?_map_update n m f t

theorem Service.updateObjects_ok {s s' : Service} {n : String} {f : List String → List String}
    (h : s.updateObjects n f = .ok s') :
    s'.maxKeys = s.maxKeys ∧
    ∀ m, s'.findBucket m = (s.findBucket m).map
      (fun b => if b.name = n then { b with objects := f b.objects } else b) := by
  rw [Service.updateObjects] at h
  cases hfind : s.findBucket n <;> rw [hfind] at h
  · simp at h
  · simp only [Except.ok.injEq] at h
    subst h
    exact ⟨rfl, fun m => find?_map_update n m f s.buckets⟩

theorem Service.updateObjects_exists_ok {s : Service} {n : String} (bu : Bucket)
    (hfind : s.findBucket n = some bu) (f : List String → List String) :
    ∃ s', s.updateObjects n f = .ok s' := by
  rw [Service.updateObjects, hfind]
  exact ⟨_, rfl⟩

theorem Service.findBucket_name {s : Service} {n : String} {bu : Bucket}
    (h : s.findBucket n = some bu) : bu.name = n := by
  have := List.find?_some h
  simpa using this

theorem map_entry_key (l : List String) :
    l.map ((fun entry : ListObjectsEntry => entry.Key) ∘ fun k => { Key := k }) = l := by
  have h : ((fun entry : ListObjectsEntry => entry.Key) ∘
      fun k : String => ({ Key := k } : ListObjectsEntry)) = fun k => k := by
    funext k
    rfl
  rw [h, List.map_id']

/-- C4 (amended): against a bucket that exists, `upload_file` of key K
always succeeds, and a subsequent `get_file_list` includes K provided
the listing fits within the service's single first response page (here:
the bucket held fewer keys than the page size); after `delete_file` of
K the listing always excludes K; and `delete_file` never raises for a
key that is absent — including deleting K a second time. -/
theorem c4_upload_delete_roundtrip (s : Service) (b K lp : String) (bu : Bucket)
    (hb : s.findBucket b = some bu) :
    (∃ s₁, S3.upload_file s b lp K = .ok s₁) ∧
    (bu.objects.length < s.maxKeys →
      ∀ s₁, S3.upload_file s b lp K = .ok s₁ →
        ∃ ks, S3.get_file_list s₁ b = .ok ks ∧ K ∈ ks) ∧
    (∀ s₂, S3.delete_file s b K = .ok s₂ →
      ∃ ks, S3.get_file_list s₂ b = .ok ks ∧ K ∉ ks) ∧
    (∃ s₂, S3.delete_file s b K = .ok s₂) ∧
    (∀ s₂, S3.delete_file s b K = .ok s₂ → ∃ s₃, S3.delete_file s₂ b K = .ok s₃) := by
  have hname : bu.name = b := Service.findBucket_name hb
  have hup : ∀ t : Service, S3.upload_file t b lp K =
      t.updateObjects b (fun keys => if K ∈ keys then keys else keys ++ [K]) :=
    fun t => rfl
  have hdel : ∀ t : Service, S3.delete_file t b K =
      t.updateObjects b (fun keys => keys.filter (fun k => k ≠ K)) :=
    fun t => rfl
  refine ⟨?_, ?_, ?_, ?_, ?_⟩
  · rw [hup s]
    exact Service.updateObjects_exists_ok bu hb _
  · intro hlen s₁ h
    rw [hup s] at h
    obtain ⟨hmax, hfind⟩ := Service.updateObjects_ok h
    have hfb : s₁.findBucket b =
        some { bu with objects := if K ∈ bu.objects then bu.objects else bu.objects ++ [K] } := by
      rw [hfind b, hb]
      simp [hname]
    have hK : K ∈ (if K ∈ bu.objects then bu.objects else bu.objects ++ [K]) := by
      split
      · assumption
      · simp
    have hlen' : (if K ∈ bu.objects then bu.objects else bu.objects ++ [K]).length ≤ s.maxKeys := by
      split
      · exact Nat.le_of_lt hlen
      · simp only [List.length_append, List.length_cons, List.length_nil]
        omega
    have hne := List.ne_nil_of_mem hK
    refine ⟨_, ?_, hK⟩
    simp only [S3.get_file_list, Service.list_objects_v2, hfb, get_file_list_core, if_neg hne,
      List.map_map]
    rw [hmax, List.take_of_length_le hlen', map_entry_key]
  · intro s₂ h
    rw [hdel s] at h
    obtain ⟨hmax, hfind⟩ := Service.updateObjects_ok h
    have hfb : s₂.findBucket b =
        some { bu with objects := bu.objects.filter (fun k => k ≠ K) } := by
      rw [hfind b, hb]
      simp [hname]
    have hKout : K ∉ bu.objects.filter (fun k => k ≠ K) := by
      simp [List.mem_filter]
    by_cases hnil : bu.objects.filter (fun k => k ≠ K) = []
    · refine ⟨[], ?_, by simp⟩
      simp only [S3.get_file_list, Service.list_objects_v2, hfb, get_file_list_core, if_pos hnil]
    · refine ⟨(bu.objects.filter (fun k => k ≠ K)).take s₂.maxKeys, ?_, ?_⟩
      · simp only [S3.get_file_list, Service.list_objects_v2, hfb, get_file_list_core,
          if_neg hnil, List.map_map, map_entry_key]
      · intro hKin
        exact hKout (List.take_subset _ _ hKin)
  · rw [hdel s]
    exact Service.updateObjects_exists_ok bu hb _
  · intro s₂ h
    rw [hdel s] at h
    obtain ⟨hmax, hfind⟩ := Service.updateObjects_ok h
    have hfb : s₂.findBucket b =
        some { bu with objects := bu.objects.filter (fun k => k ≠ K) } := by
      rw [hfind b, hb]
      simp [hname]
    rw [hdel s₂]
    exact Service.updateObjects_exists_ok _ hfb _

/-- C4 counterexample: with a service whose first response page holds a
single key and a bucket already holding "a", uploading key "k" succeeds
yet the subsequent `get_file_list` returns `["a"]`, which excludes the
freshly uploaded key — the claim's unconditional upload-then-list
inclusion fails. -/
theorem c4_counterexample :
    (do
      let s₁ ← S3.upload_file
        { buckets := [{ name := "b", objects := ["a"] }], maxKeys := 1 } "b" "local" "k"
      S3.get_file_list s₁ "b") = .ok ["a"] ∧
    "k" ∉ (["a"] : List String) :=
  ⟨rfl, by decide⟩

theorem c4_witness :
    ({ buckets := [{ name := "b", objects := ["a"] }], maxKeys := 1000 } : Service).findBucket
        "b" = some { name := "b", objects := ["a"] } ∧
    (∃ s₂, S3.delete_file
        { buckets := [{ name := "b", objects := ["a"] }], maxKeys := 1000 } "b" "a" = .ok s₂) :=
  ⟨rfl,
    (c4_upload_delete_roundtrip
      { buckets := [{ name := "b", objects := ["a"] }], maxKeys := 1000 } "b" "a" "local"
      { name := "b", objects := ["a"] } rfl).2.2.2.1⟩

/-- C5: `get_file_list_by_dir` returns exactly the object keys starting
with the given characters — every matching key of the bucket, drained
across the auto-paginating iteration regardless of page boundaries (a
bucket whose second key lies beyond the single page of `get_file_list`
still has it reported); and the spec's concrete scenario holds: after
uploading "p/x" and "q/y", listing by "p/" yields exactly `["p/x"]`. -/
theorem c5_list_by_dir_exact :
    (∀ (s : Service) (b d : String) (bu : Bucket), s.findBucket b = some bu →
      S3.get_file_list_by_dir s b d =
        .ok (bu.objects.filter (fun k => pyStartswith k d)) ∧
      ∀ k, k ∈ bu.objects.filter (fun k => pyStartswith k d) ↔
        (k ∈ bu.objects ∧ pyStartswith k d = true)) ∧
    ((do
        let s₁ ← S3.upload_file
          { buckets := [{ name := "b", objects := [] }], maxKeys := 1000 } "b" "l1" "p/x"
        let s₂ ← S3.upload_file s₁ "b" "l2" "q/y"
        S3.get_file_list_by_dir s₂ "b" "p/") = .ok ["p/x"]) ∧
    (S3.get_file_list
        { buckets := [{ name := "b", objects := ["p/a", "p/b"] }], maxKeys := 1 } "b" =
      .ok ["p/a"] ∧
     S3.get_file_list_by_dir
        { buckets := [{ name := "b", objects := ["p/a", "p/b"] }], maxKeys := 1 } "b" "p/" =
      .ok ["p/a", "p/b"]) := by
  refine ⟨?_, rfl, rfl, rfl⟩
  intro s b d bu hbu
  constructor
  · simp [S3.get_file_list_by_dir, Service.objects_filter, hbu]
  · intro k
    simp [List.mem_filter]

theorem c5_witness :
    S3.get_file_list_by_dir
        { buckets := [{ name := "b", objects := ["p/x", "q/y"] }], maxKeys := 1000 } "b" "p/" =
      .ok (["p/x", "q/y"].filter (fun k => pyStartswith k "p/")) :=
  (c5_list_by_dir_exact.1
    { buckets := [{ name := "b", objects := ["p/x", "q/y"] }], maxKeys := 1000 } "b" "p/"
    { name := "b", objects := ["p/x", "q/y"] } rfl).1
